import Mathlib

/-!
Verification of the `generate_token` Cloud Function from
`terraform-cloud-dynamic-credentials` (`src/func/main.py`).

The function is shallowly embedded: decoded JSON documents and Python
values are modelled by `PyVal`, the outcomes of the three outbound
Terraform Cloud HTTP calls and of the IAM-credentials minting call are
modelled by an oracle (`CallResult` / `World`), and the function's result
is an `Outcome`: either an HTTP response `(body, status)` returned by the
handler, or an unhandled Python exception propagating out of it.
-/

/-- Values of decoded JSON documents, as Python represents them
(`json.loads` output): `None`, booleans, integers, strings, lists and
string-keyed dicts.  (Float literals are not needed by any document the
function inspects and are not modelled.) -/
inductive PyVal where
  | none
  | bool (b : Bool)
  | int (n : Int)
  | str (s : String)
  | list (xs : List PyVal)
  | dict (kvs : List (String × PyVal))

/-- Unhandled Python exceptions that can escape `generate_token`. -/
inductive PyExn where
  /-- `UnboundLocalError`: a local variable read before assignment. -/
  | unboundLocal (name : String)
  /-- `KeyError` from subscripting a dict with a missing key. -/
  | keyError (key : String)
  /-- `TypeError` from subscripting / concatenating a value of the wrong type. -/
  | typeError
  /-- an exception raised by `requests.get` itself (e.g. `ConnectionError`),
  which the source never catches. -/
  | requestFailure
  /-- an exception raised by the IAM-credentials minting client
  (`iam.generate_access_token`), which the source never catches. -/
  | mintFailure

/-- Result of one invocation of the handler: an HTTP response consisting of
a JSON body (a Python dict, in insertion order) and a status code, or an
unhandled exception propagating to the functions framework. -/
inductive Outcome where
  | response (body : List (String × PyVal)) (status : Nat)
  | exn (e : PyExn)

/-- Python subscript `v[k]` with a string key: succeeds only on a dict that
has the key (`KeyError` if the key is missing, `TypeError` on any
non-dict). -/
def pyGet (v : PyVal) (k : String) : Except PyExn PyVal :=
  match v with
  | .dict kvs =>
    match kvs.lookup k with
    | some x => .ok x
    | Option.none => .error (.keyError k)
  | _ => .error .typeError

/-- Chained Python subscripts `v[k1][k2]...`, left to right, first error
wins — the shape of the nested field accesses in `main.py`. -/
def pyGetPath (v : PyVal) : List String → Except PyExn PyVal
  | [] => .ok v
  | k :: ks =>
    match pyGet v k with
    | .error e => .error e
    | .ok x => pyGetPath x ks

/-- Python equality test `v == True` (line 127 uses `!= True`): `True`
itself and the integer `1` compare equal to `True`; strings, containers,
`None` and every other integer do not. -/
def pyEqTrue : PyVal → Bool
  | .bool b => b
  | .int n => decide (n = 1)
  | _ => false

/-- Line 153-154: `run_status in ("planning", "applying")`.  Python `in`
on a tuple of strings is elementwise equality, so only the two exact
strings match; any non-string value is simply not a member. -/
def runEligible : PyVal → Bool
  | .str s => s == "planning" || s == "applying"
  | _ => false

mutual
/-- Python `repr` of a decoded-JSON value (used through `str` inside
f-strings for non-string values).  String escaping of special characters
inside `repr` is not modelled; no document the claims exercise needs it. -/
def pyRepr : PyVal → String
  | .none => "None"
  | .bool b => if b then "True" else "False"
  | .int n => toString n
  | .str s => "'" ++ s ++ "'"
  | .list xs => "[" ++ pyReprList xs ++ "]"
  | .dict kvs => "\x7b" ++ pyReprDict kvs ++ "\x7d"

/-- Comma-joined `repr` of list elements. -/
def pyReprList : List PyVal → String
  | [] => ""
  | [x] => pyRepr x
  | x :: y :: xs => pyRepr x ++ ", " ++ pyReprList (y :: xs)

/-- Comma-joined `repr` of dict entries. -/
def pyReprDict : List (String × PyVal) → String
  | [] => ""
  | [(k, v)] => "'" ++ k ++ "': " ++ pyRepr v
  | (k, v) :: y :: xs => "'" ++ k ++ "': " ++ pyRepr v ++ ", " ++ pyReprDict (y :: xs)
end

/-- Python `str(v)` as applied by an f-string (lines 51 and 182): a string
is inserted verbatim, anything else through its `repr`-style rendering. -/
def pyStr : PyVal → String
  | .str s => s
  | v => pyRepr v

/-- Python substring test `needle in hay` for strings (reachable at line
188 when the parsed mapping is itself a string). -/
def strContains (hay needle : String) : Bool :=
  needle.isEmpty || decide (2 ≤ (hay.splitOn needle).length)

/-- Python membership `k in container` for a string `k` (line 188):
key lookup on dicts, elementwise equality on lists, substring test on
strings, `TypeError` on anything else. -/
def pyContains (container : PyVal) (k : String) : Except PyExn Bool :=
  match container with
  | .dict kvs => .ok (kvs.lookup k).isSome
  | .list xs => .ok (xs.any fun x => match x with | .str s => s == k | _ => false)
  | .str s => .ok (strContains s k)
  | _ => .error .typeError

/-- Lines 44-47 (`REQUEST_SCHEMA`): the body must be a dict carrying
exactly the keys `TFC_TOKEN` and `RUN_ID`, both with string values
(`extra=False` forbids any other key). -/
def schemaOk (v : PyVal) : Bool :=
  match v with
  | .dict kvs =>
    (match kvs.lookup "TFC_TOKEN" with | some (.str _) => true | _ => false) &&
    (match kvs.lookup "RUN_ID" with | some (.str _) => true | _ => false) &&
    kvs.all (fun kv => kv.1 == "TFC_TOKEN" || kv.1 == "RUN_ID")
  | _ => false

/-- Modelled detail text of the humanized schema-violation diagnostic
produced by the external `voluptuous` validator (line 84).  The exact
wording is library-defined; the verification only relies on the message
being a (non-null) string. -/
def schemaErrDetail (v : PyVal) : String :=
  match v with
  | .dict kvs =>
    if (kvs.lookup "TFC_TOKEN").isNone then
      "required key not provided @ data['TFC_TOKEN']"
    else if (kvs.lookup "RUN_ID").isNone then
      "required key not provided @ data['RUN_ID']"
    else if kvs.all (fun kv => kv.1 == "TFC_TOKEN" || kv.1 == "RUN_ID") then
      "expected str"
    else
      "extra keys not allowed"
  | _ => "expected a dictionary"

/-- Lines 79-80: response to a missing or unparseable request body.
Note it carries no `token` key. -/
def invalidBodyBody : List (String × PyVal) :=
  [("status", .str "error"),
   ("message", .str "invalid or missing JSON request body")]

/-- Lines 89-91: response to a schema violation. -/
def schemaErrBody (detail : String) : List (String × PyVal) :=
  [("status", .str "error"),
   ("message", .str ("Invalid JSON schema in request body from client: " ++ detail)),
   ("token", .none)]

/-- Lines 111-113: response when the account-details call returns 401. -/
def unauthorizedBody : List (String × PyVal) :=
  [("status", .str "error"), ("msg", .str "Unauthorized"), ("token", .none)]

/-- Lines 38-40: the shared `BAD_GATEWAY` response body. -/
def badGatewayBody : List (String × PyVal) :=
  [("status", .str "error"), ("msg", .str "Bad Gateway"), ("token", .none)]

/-- Lines 128-130: response when the validated token does not belong to a
service account. -/
def notServiceAccountBody : List (String × PyVal) :=
  [("status", .str "error"),
   ("msg", .str "Token does not belong to a service account"),
   ("token", .none)]

/-- Lines 157-160: response when the run status is not planning/applying. -/
def runStatusBody : List (String × PyVal) :=
  [("status", .str "error"),
   ("msg", .str "run status not planning or applying"),
   ("token", .none)]

/-- Lines 189-191: response when the workspace slug has no mapped identity. -/
def unmappedBody (ws_slug : String) : List (String × PyVal) :=
  [("status", .str "error"),
   ("msg", .str ("no identity for workspace: " ++ ws_slug)),
   ("token", .none)]

/-- Lines 195-198: the success body (the framework sends it with HTTP 200). -/
def successBody (access_token : String) : List (String × PyVal) :=
  [("status", .str "success"), ("token", .str access_token)]

/-- The `BAD_GATEWAY` outcome, `({...}, 502)`. -/
def badGateway : Outcome := .response badGatewayBody 502

/-- Result of one outbound `requests.get`: either the call itself raised
(`ConnectionError`, timeout, ...) or it produced a response with an HTTP
status code and a body whose JSON decoding (`resp.json()`) yields either a
document or a `JSONDecodeError` (modelled as `Option.none`). -/
inductive CallResult where
  | netError
  | resp (status : Nat) (body : Option PyVal)

/-- The fixed external world one invocation runs against: the outcomes of
the account-details, run-details and workspace-details calls, and the
minting API as a function from the requested service-account resource name
to the access token it returns (`Option.none` = the minting client
raises). -/
structure World where
  account : CallResult
  run : CallResult
  workspace : CallResult
  mint : String → Option String

/-- Lines 50-61 (`get_sa_token`): subscript the mapping at the slug, build
the full service-account resource name (the `serviceAccounts` wildcard
form) by f-string, and call the minting API with exactly that name. -/
def get_sa_token (mint : String → Option String) (creds_mapping : PyVal)
    (tfc_ws_slug : String) : Except PyExn String :=
  match pyGet creds_mapping tfc_ws_slug with
  | .error e => .error e
  | .ok v =>
    match mint ("projects/-/serviceAccounts/" ++ pyStr v) with
    | some token => .ok token
    | Option.none => .error .mintFailure

/-- Lines 76-94: `request.get_json(silent=True)` (`Option.none` models a
missing/unparseable body) followed by schema validation; on success the
decoded body is passed on. -/
def decodeStage (request_json : Option PyVal) : Except Outcome PyVal :=
  match request_json with
  | Option.none => .error (.response invalidBodyBody 400)
  | some rj =>
    if schemaOk rj then .ok rj
    else .error (.response (schemaErrBody (schemaErrDetail rj)) 400)

/-- Lines 99-130: the account-details call.  `raise_for_status` raises
exactly for statuses in `[400, 600)`; 401 maps to a caller-visible 401 and
every other raised status to `BAD_GATEWAY`.  A `JSONDecodeError` maps to
`BAD_GATEWAY`; the nested subscripts of line 127 propagate Python errors;
a value not `== True` yields the 400 of lines 128-130. -/
def accountStage (r : CallResult) : Except Outcome Unit :=
  match r with
  | .netError => .error (.exn .requestFailure)
  | .resp status body =>
    if 400 ≤ status ∧ status < 600 then
      if status = 401 then .error (.response unauthorizedBody 401)
      else .error badGateway
    else
      match body with
      | Option.none => .error badGateway
      | some sess_json =>
        match pyGetPath sess_json ["data", "attributes", "is-service-account"] with
        | .error e => .error (.exn e)
        | .ok v =>
          if pyEqTrue v then .ok () else .error (.response notServiceAccountBody 400)

/-- Lines 132-160: the run-details call.  An `HTTPError` from
`raise_for_status` is caught and only logged (lines 136-139), so the HTTP
status is never branched on; a `JSONDecodeError` maps to `BAD_GATEWAY`;
line 149 then line 150 extract the status and the workspace id (in that
order, so their subscript errors propagate in that order), and only then
is the status policy of lines 152-160 checked. -/
def runStage (r : CallResult) : Except Outcome PyVal :=
  match r with
  | .netError => .error (.exn .requestFailure)
  | .resp _status body =>
    match body with
    | Option.none => .error badGateway
    | some run_json =>
      match pyGetPath run_json ["data", "attributes", "status"] with
      | .error e => .error (.exn e)
      | .ok run_status =>
        match pyGetPath run_json ["data", "relationships", "workspace", "data", "id"] with
        | .error e => .error (.exn e)
        | .ok tfc_ws_id =>
          if runEligible run_status then .ok tfc_ws_id
          else .error (.response runStatusBody 400)

/-- Lines 162-186: the workspace-details call.  Line 163 concatenates the
base URL with `tfc_ws_id`, a `TypeError` when the id is not a string; a
raised HTTP status or a `JSONDecodeError` maps to `BAD_GATEWAY`; lines
180-182 extract the organization id and workspace name and compose the
slug by f-string. -/
def wsStage (tfc_ws_id : PyVal) (r : CallResult) : Except Outcome String :=
  match tfc_ws_id with
  | .str _ =>
    match r with
    | .netError => .error (.exn .requestFailure)
    | .resp status body =>
      if 400 ≤ status ∧ status < 600 then .error badGateway
      else
        match body with
        | Option.none => .error badGateway
        | some ws_json =>
          match pyGetPath ws_json ["data", "relationships", "organization", "data", "id"] with
          | .error e => .error (.exn e)
          | .ok tfc_org =>
            match pyGetPath ws_json ["data", "attributes", "name"] with
            | .error e => .error (.exn e)
            | .ok tfc_ws_name => .ok (pyStr tfc_org ++ "/" ++ pyStr tfc_ws_name)
  | _ => .error (.exn .typeError)

/-- Lines 188-198: the mapping lookup (`ws_slug not in parsed_mapping`
yields the 404 of lines 189-191) followed by `get_sa_token` and the
success response. -/
def mintStage (parsed_mapping : PyVal) (mint : String → Option String)
    (ws_slug : String) : Outcome :=
  match pyContains parsed_mapping ws_slug with
  | .error e => .exn e
  | .ok false => .response (unmappedBody ws_slug) 404
  | .ok true =>
    match get_sa_token mint parsed_mapping ws_slug with
    | .error e => .exn e
    | .ok access_token => .response (successBody access_token) 200

/-- Lines 132-198: the tail of the pipeline reached once the token has been
validated as a service-account token. -/
def afterAccount (parsed_mapping : PyVal) (w : World) : Outcome :=
  match runStage w.run with
  | .error o => o
  | .ok tfc_ws_id =>
    match wsStage tfc_ws_id w.workspace with
    | .error o => o
    | .ok ws_slug => mintStage parsed_mapping w.mint ws_slug

/-- Lines 64-198 (`generate_token`).  `mappingParse` is the result of
`json.loads(SA_MAPPING)` (`Option.none` models `JSONDecodeError`): the
`except` arm of lines 68-69 only logs, so `parsed_mapping` is then read
unassigned at line 71 and an `UnboundLocalError` escapes.  `request_json`
is the result of `request.get_json(silent=True)`. -/
def generate_token (mappingParse : Option PyVal) (request_json : Option PyVal)
    (w : World) : Outcome :=
  match mappingParse with
  | Option.none => .exn (.unboundLocal "parsed_mapping")
  | some parsed_mapping =>
    match decodeStage request_json with
    | .error o => o
    | .ok _rj =>
      match accountStage w.account with
      | .error o => o
      | .ok () => afterAccount parsed_mapping w

/-! ## Fixtures: the concrete scenario of the specification

The request body, upstream documents and mapping of the spec's worked
scenario (section 8): body `TFC_TOKEN = t1, RUN_ID = run-123`, a
service-account session, a `planning` run owned by workspace `ws-1`,
workspace `prod` of organization `org-a`, and the mapping sending
`org-a/prod` to `sa1@proj.iam`. -/

/-- Request body of the worked scenario. -/
def reqBody0 : PyVal := .dict [("TFC_TOKEN", .str "t1"), ("RUN_ID", .str "run-123")]

/-- Account-details document of a service-account session. -/
def acctBody0 : PyVal :=
  .dict [("data", .dict [("attributes", .dict [("is-service-account", .bool true)])])]

/-- Account-details document of a human-user session. -/
def acctBodyFalse : PyVal :=
  .dict [("data", .dict [("attributes", .dict [("is-service-account", .bool false)])])]

/-- Account-details document whose flag is the integer `1`. -/
def acctBodyOne : PyVal :=
  .dict [("data", .dict [("attributes", .dict [("is-service-account", .int 1)])])]

/-- Run document: a `planning` run of workspace `ws-1`. -/
def runBody0 : PyVal :=
  .dict [("data", .dict
    [("attributes", .dict [("status", .str "planning")]),
     ("relationships", .dict
       [("workspace", .dict [("data", .dict [("id", .str "ws-1")])])])])]

/-- Run document: an `errored` run of workspace `ws-1`. -/
def runBodyErr : PyVal :=
  .dict [("data", .dict
    [("attributes", .dict [("status", .str "errored")]),
     ("relationships", .dict
       [("workspace", .dict [("data", .dict [("id", .str "ws-1")])])])])]

/-- Workspace document: workspace `prod` of organization `org-a`. -/
def wsBody0 : PyVal :=
  .dict [("data", .dict
    [("relationships", .dict
       [("organization", .dict [("data", .dict [("id", .str "org-a")])])]),
     ("attributes", .dict [("name", .str "prod")])])]

/-- The scenario's identity mapping. -/
def mapping0 : List (String × PyVal) := [("org-a/prod", .str "sa1@proj.iam")]

/-- The scenario's minting API: returns `minted-token` exactly for the
resource name of the mapped identity. -/
def mint0 : String → Option String :=
  fun s => if s = "projects/-/serviceAccounts/sa1@proj.iam" then some "minted-token"
           else Option.none

/-- The scenario's world: all three upstream calls answer 200 with the
documents above. -/
def world0 : World :=
  ⟨.resp 200 (some acctBody0), .resp 200 (some runBody0), .resp 200 (some wsBody0), mint0⟩

/-! ## Shape of the possible outcomes -/

/-- An error body in the shape the spec describes: a `status: "error"`
marker, `token: null`, and a string diagnostic under `msg` or `message`. -/
def errorBodyOk (body : List (String × PyVal)) : Prop :=
  body.lookup "status" = some (.str "error") ∧
  body.lookup "token" = some PyVal.none ∧
  ∃ m, body.lookup "msg" = some (.str m) ∨ body.lookup "message" = some (.str m)

/-- Whether an outcome is a success (HTTP 200) response. -/
def isSuccess : Outcome → Bool
  | .response _ c => c == 200
  | .exn _ => false

/-- Whether an outcome is an HTTP response at all (as opposed to an
unhandled exception). -/
def isHttpResponse : Outcome → Bool
  | .response _ _ => true
  | .exn _ => false

theorem errorBodyOk_schemaErr (d : String) : errorBodyOk (schemaErrBody d) :=
  ⟨rfl, rfl, "Invalid JSON schema in request body from client: " ++ d, Or.inr rfl⟩

theorem errorBodyOk_unauthorized : errorBodyOk unauthorizedBody :=
  ⟨rfl, rfl, "Unauthorized", Or.inl rfl⟩

theorem errorBodyOk_badGateway : errorBodyOk badGatewayBody :=
  ⟨rfl, rfl, "Bad Gateway", Or.inl rfl⟩

theorem errorBodyOk_notServiceAccount : errorBodyOk notServiceAccountBody :=
  ⟨rfl, rfl, "Token does not belong to a service account", Or.inl rfl⟩

theorem errorBodyOk_runStatus : errorBodyOk runStatusBody :=
  ⟨rfl, rfl, "run status not planning or applying", Or.inl rfl⟩

theorem errorBodyOk_unmapped (s : String) : errorBodyOk (unmappedBody s) :=
  ⟨rfl, rfl, "no identity for workspace: " ++ s, Or.inl rfl⟩


/-! ## Shape lemmas: the finitely many outcomes of each stage -/

theorem decodeStage_some_shape (rj : PyVal) :
    decodeStage (some rj) = .ok rj ∨
    decodeStage (some rj) = .error (.response (schemaErrBody (schemaErrDetail rj)) 400) := by
  simp only [decodeStage]
  split
  · exact .inl rfl
  · exact .inr rfl

theorem accountStage_shape (r : CallResult) :
    accountStage r = .ok () ∨
    accountStage r = .error (.response unauthorizedBody 401) ∨
    accountStage r = .error badGateway ∨
    accountStage r = .error (.response notServiceAccountBody 400) ∨
    ∃ e, accountStage r = .error (.exn e) := by
  cases r with
  | netError => exact .inr (.inr (.inr (.inr ⟨_, rfl⟩)))
  | resp status body =>
    cases body with
    | none =>
      simp only [accountStage]
      repeat' split
      all_goals
        first
        | exact .inl rfl
        | exact .inr (.inl rfl)
        | exact .inr (.inr (.inl rfl))
    | some sj =>
      simp only [accountStage]
      cases hp : pyGetPath sj ["data", "attributes", "is-service-account"] with
      | error e =>
        simp only [hp]
        repeat' split
        all_goals
          first
          | exact .inr (.inl rfl)
          | exact .inr (.inr (.inl rfl))
          | exact .inr (.inr (.inr (.inr ⟨_, rfl⟩)))
      | ok v =>
        simp only [hp]
        repeat' split
        all_goals
          first
          | exact .inl rfl
          | exact .inr (.inl rfl)
          | exact .inr (.inr (.inl rfl))
          | exact .inr (.inr (.inr (.inl rfl)))

theorem runStage_shape (r : CallResult) :
    runStage r = .error badGateway ∨
    runStage r = .error (.response runStatusBody 400) ∨
    (∃ e, runStage r = .error (.exn e)) ∨
    ∃ v, runStage r = .ok v := by
  cases r with
  | netError => exact .inr (.inr (.inl ⟨_, rfl⟩))
  | resp status body =>
    cases body with
    | none => exact .inl rfl
    | some bj =>
      simp only [runStage]
      cases hp : pyGetPath bj ["data", "attributes", "status"] with
      | error e => simp only [hp]; exact .inr (.inr (.inl ⟨_, rfl⟩))
      | ok sv =>
        simp only [hp]
        cases hq : pyGetPath bj ["data", "relationships", "workspace", "data", "id"] with
        | error e => simp only [hq]; exact .inr (.inr (.inl ⟨_, rfl⟩))
        | ok wv =>
          simp only [hq]
          split
          · exact .inr (.inr (.inr ⟨_, rfl⟩))
          · exact .inr (.inl rfl)

theorem wsStage_shape (v : PyVal) (r : CallResult) :
    wsStage v r = .error badGateway ∨
    (∃ e, wsStage v r = .error (.exn e)) ∨
    ∃ s, wsStage v r = .ok s := by
  cases v with
  | str sv =>
    cases r with
    | netError => exact .inr (.inl ⟨_, rfl⟩)
    | resp status body =>
      cases body with
      | none =>
        simp only [wsStage]
        split
        · exact .inl rfl
        · exact .inl rfl
      | some wj =>
        simp only [wsStage]
        cases hp : pyGetPath wj ["data", "relationships", "organization", "data", "id"] with
        | error e =>
          simp only [hp]
          split
          · exact .inl rfl
          · exact .inr (.inl ⟨_, rfl⟩)
        | ok ov =>
          simp only [hp]
          cases hq : pyGetPath wj ["data", "attributes", "name"] with
          | error e =>
            simp only [hq]
            split
            · exact .inl rfl
            · exact .inr (.inl ⟨_, rfl⟩)
          | ok nv =>
            simp only [hq]
            split
            · exact .inl rfl
            · exact .inr (.inr ⟨_, rfl⟩)
  | none => exact .inr (.inl ⟨_, rfl⟩)
  | bool b => exact .inr (.inl ⟨_, rfl⟩)
  | int n => exact .inr (.inl ⟨_, rfl⟩)
  | list xs => exact .inr (.inl ⟨_, rfl⟩)
  | dict kvs => exact .inr (.inl ⟨_, rfl⟩)

theorem mintStage_shape (pm : PyVal) (mint : String → Option String) (slug : String) :
    (∃ e, mintStage pm mint slug = .exn e) ∨
    mintStage pm mint slug = .response (unmappedBody slug) 404 ∨
    ∃ t, mintStage pm mint slug = .response (successBody t) 200 := by
  simp only [mintStage]
  cases hc : pyContains pm slug with
  | error e => exact .inl ⟨_, rfl⟩
  | ok b =>
    cases b with
    | false => exact .inr (.inl rfl)
    | true =>
      cases hg : get_sa_token mint pm slug with
      | error e => exact .inl ⟨_, rfl⟩
      | ok t => exact .inr (.inr ⟨_, rfl⟩)
theorem afterAccount_resp_errorBodyOk (pm : PyVal) (w : World)
    (b : List (String × PyVal)) (c : Nat)
    (h : afterAccount pm w = .response b c) (hc : c ≠ 200) : errorBodyOk b := by
  unfold afterAccount at h
  rcases runStage_shape w.run with h1 | h1 | ⟨e, h1⟩ | ⟨v, h1⟩ <;>
    rw [h1] at h <;> simp only [] at h
  · simp only [badGateway, Outcome.response.injEq] at h
    rw [← h.1]; exact errorBodyOk_badGateway
  · simp only [Outcome.response.injEq] at h
    rw [← h.1]; exact errorBodyOk_runStatus
  · simp at h
  · rcases wsStage_shape v w.workspace with h2 | ⟨e, h2⟩ | ⟨s, h2⟩ <;>
      rw [h2] at h <;> simp only [] at h
    · simp only [badGateway, Outcome.response.injEq] at h
      rw [← h.1]; exact errorBodyOk_badGateway
    · simp at h
    · rcases mintStage_shape pm w.mint s with ⟨e, h3⟩ | h3 | ⟨t, h3⟩ <;> rw [h3] at h
      · simp at h
      · simp only [Outcome.response.injEq] at h
        rw [← h.1]; exact errorBodyOk_unmapped s
      · simp only [Outcome.response.injEq] at h
        exact absurd h.2.symm hc

/-! ## Claims -/

/-- C2 (amended): for every input whose JSON request body is present
(`request.get_json` returned a document), if `generate_token` returns a
response with a status other than 200, then the response body carries the
`status: "error"` marker, the key `token` with value null, and a string
diagnostic under `msg` or `message`.  (The claim as frozen also covered
the missing-request-body 400 of lines 78-80, whose body has no `token`
key at all; see the counterexample.) -/
theorem claim_C2_error_response_shape (mp : Option PyVal) (rj : PyVal) (w : World)
    (b : List (String × PyVal)) (c : Nat)
    (h : generate_token mp (some rj) w = .response b c) (hc : c ≠ 200) :
    errorBodyOk b := by
  cases mp with
  | none => simp [generate_token] at h
  | some pm =>
    unfold generate_token at h
    rcases decodeStage_some_shape rj with h1 | h1 <;>
      rw [h1] at h <;> simp only [] at h
    · rcases accountStage_shape w.account with h2 | h2 | h2 | h2 | ⟨e, h2⟩ <;>
        rw [h2] at h <;> simp only [] at h
      · exact afterAccount_resp_errorBodyOk pm w b c h hc
      · simp only [Outcome.response.injEq] at h
        rw [← h.1]; exact errorBodyOk_unauthorized
      · simp only [badGateway, Outcome.response.injEq] at h
        rw [← h.1]; exact errorBodyOk_badGateway
      · simp only [Outcome.response.injEq] at h
        rw [← h.1]; exact errorBodyOk_notServiceAccount
      · simp at h
    · simp only [Outcome.response.injEq] at h
      rw [← h.1]; exact errorBodyOk_schemaErr _

/-- C2 counterexample: on a missing (or unparseable) request body the
handler returns a 400 error response (lines 79-80) whose body has NO
`token` key at all — `lookup "token"` is `none`, not `some null` — so the
claim "every non-200 response contains the key `token` with value null"
is false as stated. -/
theorem claim_C2_counterexample :
    generate_token (some (.dict mapping0)) Option.none world0
        = .response invalidBodyBody 400 ∧
    invalidBodyBody.lookup "status" = some (.str "error") ∧
    invalidBodyBody.lookup "token" = Option.none :=
  ⟨rfl, rfl, rfl⟩

/-- Witness for C2 (amended): the 404 unmapped-workspace response of the
worked scenario run against an empty mapping satisfies the error shape. -/
theorem claim_C2_witness : errorBodyOk (unmappedBody "org-a/prod") :=
  claim_C2_error_response_shape (some (.dict [])) reqBody0 world0
    (unmappedBody "org-a/prod") 404 rfl (by decide)

theorem afterAccount_empty_no_success (w : World) :
    isSuccess (afterAccount (.dict []) w) = false := by
  unfold afterAccount
  rcases runStage_shape w.run with h1 | h1 | ⟨e, h1⟩ | ⟨v, h1⟩ <;> rw [h1]
  · rfl
  · rfl
  · rfl
  · simp only []
    rcases wsStage_shape v w.workspace with h2 | ⟨e, h2⟩ | ⟨s, h2⟩ <;> rw [h2]
    · rfl
    · rfl
    · rfl

theorem empty_mapping_no_success (rj : Option PyVal) (w : World) :
    isSuccess (generate_token (some (.dict [])) rj w) = false := by
  unfold generate_token
  cases rj with
  | none => rfl
  | some rj0 =>
    rcases decodeStage_some_shape rj0 with h1 | h1 <;> rw [h1]
    · simp only []
      rcases accountStage_shape w.account with h2 | h2 | h2 | h2 | ⟨e, h2⟩ <;> rw [h2]
      · exact afterAccount_empty_no_success w
      · rfl
      · rfl
      · rfl
      · rfl
    · rfl

/-- C1: for a request that passes schema validation, a token the account
API validates (non-error HTTP status, service-account flag accepted), an
eligible run, a resolved workspace whose slug `org ++ "/" ++ name` is
present in the identity mapping, and a minting API that returns
`acctok` for exactly the resource name built from the identity reference
mapped to that slug, `generate_token` returns HTTP 200 with body
`status: success, token: acctok`.  Because the minting oracle `mint` is
universally quantified and only pinned at the resource name of the mapped
identity reference (`hMint`), the success token being `acctok` for every
such `mint` shows the minting call is invoked with exactly the mapped
reference, and the returned token is the minting API's access token. -/
theorem claim_C1_mapped_success
    (pm : List (String × PyVal)) (rj : PyVal)
    (sAcct sRun sWs : Nat) (acctDoc runDoc wsDoc : PyVal)
    (mint : String → Option String)
    (saFlag statv : PyVal) (wsId org name : String) (idRef : PyVal) (acctok : String)
    (hschema : schemaOk rj = true)
    (hAcctS : sAcct < 400)
    (hAcct : pyGetPath acctDoc ["data", "attributes", "is-service-account"] = .ok saFlag)
    (hSA : pyEqTrue saFlag = true)
    (hStat : pyGetPath runDoc ["data", "attributes", "status"] = .ok statv)
    (hElig : runEligible statv = true)
    (hWsId : pyGetPath runDoc ["data", "relationships", "workspace", "data", "id"]
        = .ok (.str wsId))
    (hWsS : sWs < 400)
    (hOrg : pyGetPath wsDoc ["data", "relationships", "organization", "data", "id"]
        = .ok (.str org))
    (hName : pyGetPath wsDoc ["data", "attributes", "name"] = .ok (.str name))
    (hMap : pm.lookup (org ++ "/" ++ name) = some idRef)
    (hMint : mint ("projects/-/serviceAccounts/" ++ pyStr idRef) = some acctok) :
    generate_token (some (.dict pm)) (some rj)
      ⟨.resp sAcct (some acctDoc), .resp sRun (some runDoc), .resp sWs (some wsDoc), mint⟩
      = .response (successBody acctok) 200 := by
  have hD : decodeStage (some rj) = .ok rj := by
    simp only [decodeStage]
    rw [if_pos hschema]
  have hA : accountStage (.resp sAcct (some acctDoc)) = .ok () := by
    simp only [accountStage, hAcct, hSA, if_true]
    rw [if_neg (show ¬(400 ≤ sAcct ∧ sAcct < 600) by omega)]
  have hR : runStage (.resp sRun (some runDoc)) = .ok (.str wsId) := by
    simp only [runStage, hStat, hWsId, hElig, if_true]
  have hW : wsStage (.str wsId) (.resp sWs (some wsDoc)) = .ok (org ++ "/" ++ name) := by
    simp only [wsStage]
    rw [if_neg (show ¬(400 ≤ sWs ∧ sWs < 600) by omega)]
    simp only [hOrg, hName]
    rfl
  have hM : mintStage (.dict pm) mint (org ++ "/" ++ name)
      = .response (successBody acctok) 200 := by
    simp only [mintStage, pyContains, hMap, Option.isSome_some]
    simp only [get_sa_token, pyGet, hMap, hMint]
  unfold generate_token
  rw [hD]
  simp only []
  rw [hA]
  simp only []
  unfold afterAccount
  simp only []
  rw [hR]
  simp only []
  rw [hW]
  simp only []
  exact hM

/-- Witness for C1: the spec's worked scenario — request `t1 / run-123`,
service-account session, `planning` run of `ws-1`, workspace `org-a/prod`,
mapping `org-a/prod` to `sa1@proj.iam` — yields 200 with the minted token. -/
theorem claim_C1_witness :
    generate_token (some (.dict mapping0)) (some reqBody0) world0
      = .response (successBody "minted-token") 200 :=
  claim_C1_mapped_success mapping0 reqBody0 200 200 200 acctBody0 runBody0 wsBody0 mint0
    (.bool true) (.str "planning") "ws-1" "org-a" "prod" (.str "sa1@proj.iam") "minted-token"
    rfl (by decide) rfl rfl rfl rfl rfl (by decide) rfl rfl rfl rfl

/-- C9: when `SA_MAPPING_CONFIG` is not valid JSON, `json.loads` raises,
the `except` arm of lines 68-69 only logs, and `parsed_mapping` is then
read unassigned at line 71: every invocation ends in an unhandled
`UnboundLocalError` — an exception outcome, not any of the documented
HTTP responses — for every request body and every external world. -/
theorem claim_C9_invalid_mapping_config (rj : Option PyVal) (w : World) :
    generate_token Option.none rj w = .exn (.unboundLocal "parsed_mapping") := rfl

/-- C8: when the pipeline reaches workspace resolution (schema valid,
account stage passed, run eligible) and the resolved slug
`org ++ "/" ++ name` is absent from the identity mapping, the handler
returns the 404 error response of lines 189-191; and — second conjunct —
under the empty mapping `\x7b\x7d` no invocation whatsoever (any request
body, any external world) produces a success (HTTP 200) outcome. -/
theorem claim_C8_unmapped_404
    (pm : List (String × PyVal)) (rj : PyVal)
    (sRun sWs : Nat) (runDoc wsDoc : PyVal) (acct : CallResult)
    (mint : String → Option String)
    (statv : PyVal) (wsId org name : String)
    (hschema : schemaOk rj = true)
    (hacct : accountStage acct = .ok ())
    (hStat : pyGetPath runDoc ["data", "attributes", "status"] = .ok statv)
    (hElig : runEligible statv = true)
    (hWsId : pyGetPath runDoc ["data", "relationships", "workspace", "data", "id"]
        = .ok (.str wsId))
    (hWsS : sWs < 400)
    (hOrg : pyGetPath wsDoc ["data", "relationships", "organization", "data", "id"]
        = .ok (.str org))
    (hName : pyGetPath wsDoc ["data", "attributes", "name"] = .ok (.str name))
    (habsent : pm.lookup (org ++ "/" ++ name) = Option.none) :
    generate_token (some (.dict pm)) (some rj)
      ⟨acct, .resp sRun (some runDoc), .resp sWs (some wsDoc), mint⟩
      = .response (unmappedBody (org ++ "/" ++ name)) 404
    ∧ ∀ (rj2 : Option PyVal) (w2 : World),
        isSuccess (generate_token (some (.dict [])) rj2 w2) = false := by
  refine ⟨?_, fun rj2 w2 => empty_mapping_no_success rj2 w2⟩
  have hD : decodeStage (some rj) = .ok rj := by
    simp only [decodeStage]
    rw [if_pos hschema]
  have hR : runStage (.resp sRun (some runDoc)) = .ok (.str wsId) := by
    simp only [runStage, hStat, hWsId, hElig, if_true]
  have hW : wsStage (.str wsId) (.resp sWs (some wsDoc)) = .ok (org ++ "/" ++ name) := by
    simp only [wsStage]
    rw [if_neg (show ¬(400 ≤ sWs ∧ sWs < 600) by omega)]
    simp only [hOrg, hName]
    rfl
  have hM : mintStage (.dict pm) mint (org ++ "/" ++ name)
      = .response (unmappedBody (org ++ "/" ++ name)) 404 := by
    simp only [mintStage, pyContains, habsent, Option.isSome_none]
  unfold generate_token
  rw [hD]
  simp only []
  rw [hacct]
  simp only []
  unfold afterAccount
  simp only []
  rw [hR]
  simp only []
  rw [hW]
  simp only []
  exact hM

/-- Witness for C8: the worked scenario against a mapping that only knows
the slug `org-a/other` yields the 404 unmapped-workspace response for the
resolved slug `org-a/prod`. -/
theorem claim_C8_witness :
    generate_token (some (.dict [("org-a/other", .str "sa2@proj.iam")])) (some reqBody0) world0
      = .response (unmappedBody "org-a/prod") 404 :=
  (claim_C8_unmapped_404 [("org-a/other", .str "sa2@proj.iam")] reqBody0 200 200
    runBody0 wsBody0 (.resp 200 (some acctBody0)) mint0 (.str "planning") "ws-1" "org-a" "prod"
    rfl rfl rfl rfl rfl (by decide) rfl rfl rfl).1

/-- C6: once the run document decodes with a status value that is not
`planning`/`applying` (and with the workspace id of line 150 extractable,
as every run document of the documented API shape has it), the handler
returns the 400 of lines 157-160 — for every parsed mapping `pm`
whatsoever (a dict, or even a non-dict), every workspace-call result,
every minting oracle and every run-call HTTP status: the status check of
line 154 fires before the workspace call (line 165) and before the
mapping lookup (line 188). -/
theorem claim_C6_ineligible_run_400
    (pm rj runDoc : PyVal) (acct wsr : CallResult) (mint : String → Option String)
    (sRun : Nat) (statv wsIdv : PyVal)
    (hschema : schemaOk rj = true)
    (hacct : accountStage acct = .ok ())
    (hStat : pyGetPath runDoc ["data", "attributes", "status"] = .ok statv)
    (hWsId : pyGetPath runDoc ["data", "relationships", "workspace", "data", "id"] = .ok wsIdv)
    (hInelig : runEligible statv = false) :
    generate_token (some pm) (some rj) ⟨acct, .resp sRun (some runDoc), wsr, mint⟩
      = .response runStatusBody 400 := by
  have hD : decodeStage (some rj) = .ok rj := by
    simp only [decodeStage]
    rw [if_pos hschema]
  have hR : runStage (.resp sRun (some runDoc)) = .error (.response runStatusBody 400) := by
    simp only [runStage, hStat, hWsId, hInelig]
    rfl
  unfold generate_token
  rw [hD]
  simp only []
  rw [hacct]
  simp only []
  unfold afterAccount
  simp only []
  rw [hR]

/-- Witness for C6: an `errored` run is rejected with 400 even when the
parsed mapping is not a dict at all (here the integer 0) and the
workspace call would fail at the network level. -/
theorem claim_C6_witness :
    generate_token (some (.int 0)) (some reqBody0)
      ⟨.resp 200 (some acctBody0), .resp 200 (some runBodyErr), .netError, mint0⟩
      = .response runStatusBody 400 :=
  claim_C6_ineligible_run_400 (.int 0) reqBody0 runBodyErr (.resp 200 (some acctBody0))
    .netError mint0 200 (.str "errored") (.str "ws-1") rfl rfl rfl rfl rfl

/-- C7: a token the account API validates (non-error status, body decoded)
whose `is-service-account` flag is the boolean `false` makes the handler
return the 400 of lines 128-130 with the message that the token does not
belong to a service account, whatever the rest of the world does. -/
theorem claim_C7_non_service_account_400
    (pm rj acctDoc : PyVal) (runr wsr : CallResult) (mint : String → Option String)
    (sAcct : Nat)
    (hschema : schemaOk rj = true)
    (hAcctS : sAcct < 400)
    (hFlag : pyGetPath acctDoc ["data", "attributes", "is-service-account"]
        = .ok (.bool false)) :
    generate_token (some pm) (some rj) ⟨.resp sAcct (some acctDoc), runr, wsr, mint⟩
      = .response notServiceAccountBody 400 := by
  have hD : decodeStage (some rj) = .ok rj := by
    simp only [decodeStage]
    rw [if_pos hschema]
  have hA : accountStage (.resp sAcct (some acctDoc))
      = .error (.response notServiceAccountBody 400) := by
    simp only [accountStage, hFlag]
    rw [if_neg (show ¬(400 ≤ sAcct ∧ sAcct < 600) by omega)]
    rfl
  unfold generate_token
  rw [hD]
  simp only []
  rw [hA]

/-- Witness for C7: a human-user session (`is-service-account: false`) is
rejected with 400 in the worked scenario's world. -/
theorem claim_C7_witness :
    generate_token (some (.dict mapping0)) (some reqBody0)
      ⟨.resp 200 (some acctBodyFalse), .resp 200 (some runBody0), .resp 200 (some wsBody0), mint0⟩
      = .response notServiceAccountBody 400 :=
  claim_C7_non_service_account_400 (.dict mapping0) reqBody0 acctBodyFalse
    (.resp 200 (some runBody0)) (.resp 200 (some wsBody0)) mint0 200 rfl (by decide) rfl

/-- C10: line 127 compares the decoded flag to `True` with Python
equality, embedded as `pyEqTrue`: the integer `1` compares equal to `True`
and is accepted (the pipeline continues into its tail `afterAccount`),
while any value with `pyEqTrue v = false` — including the truthy string
`"true"` — is rejected with the 400 of lines 128-130. -/
theorem claim_C10_python_equality_check
    (pm rj acctDoc : PyVal) (runr wsr : CallResult) (mint : String → Option String)
    (sAcct : Nat) (v : PyVal)
    (hschema : schemaOk rj = true)
    (hAcctS : sAcct < 400)
    (hFlag : pyGetPath acctDoc ["data", "attributes", "is-service-account"] = .ok v) :
    pyEqTrue (.int 1) = true
    ∧ pyEqTrue (.str "true") = false
    ∧ (pyEqTrue v = true →
        generate_token (some pm) (some rj) ⟨.resp sAcct (some acctDoc), runr, wsr, mint⟩
          = afterAccount pm ⟨.resp sAcct (some acctDoc), runr, wsr, mint⟩)
    ∧ (pyEqTrue v = false →
        generate_token (some pm) (some rj) ⟨.resp sAcct (some acctDoc), runr, wsr, mint⟩
          = .response notServiceAccountBody 400) := by
  have hD : decodeStage (some rj) = .ok rj := by
    simp only [decodeStage]
    rw [if_pos hschema]
  refine ⟨rfl, rfl, ?_, ?_⟩
  · intro hv
    have hA : accountStage (.resp sAcct (some acctDoc)) = .ok () := by
      simp only [accountStage, hFlag, hv, if_true]
      rw [if_neg (show ¬(400 ≤ sAcct ∧ sAcct < 600) by omega)]
    unfold generate_token
    rw [hD]
    simp only []
    rw [hA]
  · intro hv
    have hA : accountStage (.resp sAcct (some acctDoc))
        = .error (.response notServiceAccountBody 400) := by
      simp only [accountStage, hFlag, hv]
      rw [if_neg (show ¬(400 ≤ sAcct ∧ sAcct < 600) by omega)]
      rfl
    unfold generate_token
    rw [hD]
    simp only []
    rw [hA]

/-- Witness for C10: with the flag decoded as the integer `1` the pipeline
passes the service-account check and proceeds to its tail. -/
theorem claim_C10_witness :
    generate_token (some (.dict mapping0)) (some reqBody0)
      ⟨.resp 200 (some acctBodyOne), .resp 200 (some runBody0), .resp 200 (some wsBody0), mint0⟩
      = afterAccount (.dict mapping0)
          ⟨.resp 200 (some acctBodyOne), .resp 200 (some runBody0), .resp 200 (some wsBody0), mint0⟩ :=
  (claim_C10_python_equality_check (.dict mapping0) reqBody0 acctBodyOne
    (.resp 200 (some runBody0)) (.resp 200 (some wsBody0)) mint0 200 (.int 1)
    rfl (by decide) rfl).2.2.1 rfl

/-- C3 (amended): an HTTP error status on the run-details call never
short-circuits at the raw-call level — the outcome is identical to the
same invocation with a 200 run-details status (lines 136-139 catch the
`HTTPError` and only log) — and execution proceeds to JSON decoding.  The
run stage can then halt with the 502 `BAD_GATEWAY` on a decode failure,
with the 400 of lines 157-160 on the status-policy check, or — the part
the frozen claim omitted — with an unhandled exception when the decoded
body lacks the expected nested fields (lines 149-150). -/
theorem claim_C3_run_http_error_no_short_circuit
    (pm rj : PyVal) (acct wsr : CallResult) (mint : String → Option String)
    (s : Nat) (body : Option PyVal)
    (hs : 400 ≤ s ∧ s < 600)
    (hschema : schemaOk rj = true)
    (hacct : accountStage acct = .ok ()) :
    (generate_token (some pm) (some rj) ⟨acct, .resp s body, wsr, mint⟩
       = generate_token (some pm) (some rj) ⟨acct, .resp 200 body, wsr, mint⟩)
    ∧ (body = Option.none →
        generate_token (some pm) (some rj) ⟨acct, .resp s body, wsr, mint⟩ = badGateway)
    ∧ (∀ bj statv wsIdv, body = some bj →
        pyGetPath bj ["data", "attributes", "status"] = .ok statv →
        pyGetPath bj ["data", "relationships", "workspace", "data", "id"] = .ok wsIdv →
        runEligible statv = false →
        generate_token (some pm) (some rj) ⟨acct, .resp s body, wsr, mint⟩
          = .response runStatusBody 400)
    ∧ (∀ bj e, body = some bj →
        pyGetPath bj ["data", "attributes", "status"] = .error e →
        generate_token (some pm) (some rj) ⟨acct, .resp s body, wsr, mint⟩ = .exn e) := by
  have hD : decodeStage (some rj) = .ok rj := by
    simp only [decodeStage]
    rw [if_pos hschema]
  refine ⟨rfl, ?_, ?_, ?_⟩
  · intro hb
    subst hb
    unfold generate_token
    rw [hD]
    simp only []
    rw [hacct]
    rfl
  · intro bj statv wsIdv hb hstat hwsid hinelig
    subst hb
    have hR : runStage (.resp s (some bj)) = .error (.response runStatusBody 400) := by
      simp only [runStage, hstat, hwsid, hinelig]
      rfl
    unfold generate_token
    rw [hD]
    simp only []
    rw [hacct]
    simp only []
    unfold afterAccount
    simp only []
    rw [hR]
  · intro bj e hb hstat
    subst hb
    have hR : runStage (.resp s (some bj)) = .error (.exn e) := by
      simp only [runStage, hstat]
    unfold generate_token
    rw [hD]
    simp only []
    rw [hacct]
    simp only []
    unfold afterAccount
    simp only []
    rw [hR]

/-- C3 counterexample: with a run-details call answering HTTP 404 and a
body that decodes fine but is the empty document, the pipeline halts with
an unhandled `KeyError` — not an HTTP response at all, so neither the
502 decode-failure response nor the 400 status-policy response: the
frozen claim's "only a JSON decode failure (502) or the run-status policy
check (400) can then halt the pipeline" is false as stated. -/
theorem claim_C3_counterexample :
    generate_token (some (.dict mapping0)) (some reqBody0)
      ⟨.resp 200 (some acctBody0), .resp 404 (some (.dict [])), .resp 200 (some wsBody0), mint0⟩
      = .exn (.keyError "data")
    ∧ isHttpResponse (Outcome.exn (.keyError "data")) = false :=
  ⟨rfl, rfl⟩

/-- Witness for C3 (amended): a 404 on the run-details call with the
well-formed planning-run body gives exactly the outcome of the 200 case. -/
theorem claim_C3_witness :
    generate_token (some (.dict mapping0)) (some reqBody0)
      ⟨.resp 200 (some acctBody0), .resp 404 (some runBody0), .resp 200 (some wsBody0), mint0⟩
      = generate_token (some (.dict mapping0)) (some reqBody0)
          ⟨.resp 200 (some acctBody0), .resp 200 (some runBody0), .resp 200 (some wsBody0), mint0⟩ :=
  (claim_C3_run_http_error_no_short_circuit (.dict mapping0) reqBody0
    (.resp 200 (some acctBody0)) (.resp 200 (some wsBody0)) mint0 404 (some runBody0)
    (by decide) rfl rfl).1

/-- C4 (amended): with the account-details call answering a non-raising
status, a body whose JSON decoding fails yields the 502 `BAD_GATEWAY` of
lines 118-122; but — against the frozen claim — a body that decodes to
valid JSON lacking the nested `data.attributes.is-service-account` field
does not produce a 502: the subscript error of line 127 escapes as an
unhandled exception. -/
theorem claim_C4_account_body_decode
    (pm rj : PyVal) (runr wsr : CallResult) (mint : String → Option String) (s : Nat)
    (hschema : schemaOk rj = true)
    (hs : s < 400) :
    (generate_token (some pm) (some rj) ⟨.resp s Option.none, runr, wsr, mint⟩ = badGateway)
    ∧ (∀ bj e, pyGetPath bj ["data", "attributes", "is-service-account"] = .error e →
        generate_token (some pm) (some rj) ⟨.resp s (some bj), runr, wsr, mint⟩ = .exn e) := by
  have hD : decodeStage (some rj) = .ok rj := by
    simp only [decodeStage]
    rw [if_pos hschema]
  constructor
  · have hA : accountStage (.resp s Option.none) = .error badGateway := by
      simp only [accountStage]
      rw [if_neg (show ¬(400 ≤ s ∧ s < 600) by omega)]
    unfold generate_token
    rw [hD]
    simp only []
    rw [hA]
  · intro bj e hpath
    have hA : accountStage (.resp s (some bj)) = .error (.exn e) := by
      simp only [accountStage, hpath]
      rw [if_neg (show ¬(400 ≤ s ∧ s < 600) by omega)]
    unfold generate_token
    rw [hD]
    simp only []
    rw [hA]

/-- C4 counterexample: an account-details body decoding to the empty JSON
document `\x7b\x7d` — valid JSON without the nested field — ends in an
unhandled `KeyError`, not in any HTTP response, so in particular not in
the 502 Bad Gateway the frozen claim asserts. -/
theorem claim_C4_counterexample :
    generate_token (some (.dict mapping0)) (some reqBody0)
      ⟨.resp 200 (some (.dict [])), .resp 200 (some runBody0), .resp 200 (some wsBody0), mint0⟩
      = .exn (.keyError "data")
    ∧ isHttpResponse (Outcome.exn (.keyError "data")) = false :=
  ⟨rfl, rfl⟩

/-- Witness for C4 (amended): a 200 account-details answer whose body is
not decodable JSON yields the 502 Bad Gateway. -/
theorem claim_C4_witness :
    generate_token (some (.dict mapping0)) (some reqBody0)
      ⟨.resp 200 Option.none, .resp 200 (some runBody0), .resp 200 (some wsBody0), mint0⟩
      = badGateway :=
  (claim_C4_account_body_decode (.dict mapping0) reqBody0
    (.resp 200 (some runBody0)) (.resp 200 (some wsBody0)) mint0 200 rfl (by decide)).1

/-- C5 (amended): for the account-details call, an HTTP 401 maps to the
caller-visible 401 with `token: null`; any other raised status (400-599,
other than 401) maps to the generic 502 `BAD_GATEWAY`, which carries no
upstream detail; but — against the frozen claim — a transport-level
failure of the call itself (`requests.get` raising) is caught nowhere in
the source (line 103 is outside every `try`) and escapes as an unhandled
exception instead of producing the 502. -/
theorem claim_C5_account_error_mapping
    (pm rj : PyVal) (runr wsr : CallResult) (mint : String → Option String)
    (s : Nat) (body : Option PyVal)
    (hschema : schemaOk rj = true) :
    (s = 401 →
      generate_token (some pm) (some rj) ⟨.resp s body, runr, wsr, mint⟩
        = .response unauthorizedBody 401)
    ∧ (400 ≤ s → s < 600 → s ≠ 401 →
      generate_token (some pm) (some rj) ⟨.resp s body, runr, wsr, mint⟩ = badGateway)
    ∧ (generate_token (some pm) (some rj) ⟨.netError, runr, wsr, mint⟩
        = .exn .requestFailure) := by
  have hD : decodeStage (some rj) = .ok rj := by
    simp only [decodeStage]
    rw [if_pos hschema]
  refine ⟨?_, ?_, ?_⟩
  · intro h401
    subst h401
    unfold generate_token
    rw [hD]
    rfl
  · intro h1 h2 h3
    have hA : accountStage (.resp s body) = .error badGateway := by
      simp only [accountStage]
      rw [if_pos ⟨h1, h2⟩, if_neg h3]
    unfold generate_token
    rw [hD]
    simp only []
    rw [hA]
  · unfold generate_token
    rw [hD]
    rfl

/-- C5 counterexample: a network-level failure of the account-details
call (e.g. a `ConnectionError`) ends in an unhandled exception — not an
HTTP response, hence not the generic 502 the frozen claim asserts for
"any other network/HTTP error". -/
theorem claim_C5_counterexample :
    generate_token (some (.dict mapping0)) (some reqBody0)
      ⟨.netError, .resp 200 (some runBody0), .resp 200 (some wsBody0), mint0⟩
      = .exn .requestFailure
    ∧ isHttpResponse (Outcome.exn PyExn.requestFailure) = false :=
  ⟨rfl, rfl⟩

/-- Witness for C5 (amended): an account-details answer of HTTP 500 maps
to the generic 502 Bad Gateway. -/
theorem claim_C5_witness :
    generate_token (some (.dict mapping0)) (some reqBody0)
      ⟨.resp 500 (some acctBody0), .resp 200 (some runBody0), .resp 200 (some wsBody0), mint0⟩
      = badGateway :=
  (claim_C5_account_error_mapping (.dict mapping0) reqBody0
    (.resp 200 (some runBody0)) (.resp 200 (some wsBody0)) mint0 500 (some acctBody0)
    rfl).2.1 (by decide) (by decide) (by decide)
